import Mathlib

/-!
Shallow embedding of the audio capture core of `src/audio.py` (class
`AudioRecorder`): the pure level meter `_calculate_audio_level`, the WAV
writer `save_wav`, the warm-up routine, and the recorder state machine
(`start_recording`, `stop_recording`, and the exit behaviour of the
background `_record` loop).
-/

namespace WindowsWhisper

/-- Signed 16-bit little-endian decoding of one sample from two bytes, as
`np.frombuffer(data, dtype=np.int16)` performs on a little-endian host. -/
def int16OfBytes (lo hi : Nat) : Int :=
  let v : Int := (lo : Int) + 256 * (hi : Int)
  if v < 32768 then v else v - 65536

/-- Decode a byte string into int16 samples; `none` models the `ValueError`
that `np.frombuffer` raises when the byte length is not a multiple of 2
(the caller catches it and returns 0.0). -/
def decodeInt16LE : List Nat → Option (List Int)
  | [] => some []
  | [_] => none
  | lo :: hi :: rest => (decodeInt16LE rest).map (fun l => int16OfBytes lo hi :: l)

/-- Wrap an integer into the int16 range, as numpy int16 arithmetic does
(twos-complement wraparound, silent overflow). -/
def int16Wrap (v : Int) : Int :=
  let m := v % 65536
  if m < 32768 then m else m - 65536

/-- Model of one element of `np.square(audio_data)` where `audio_data` has
dtype int16: the square is computed in int16 and wraps on overflow. -/
def npSquareInt16 (s : Int) : Int := int16Wrap (s * s)

/-- Model of `np.mean` on an integer array: the exact rational mean; `none`
models the NaN that numpy produces on an empty array. -/
def npMeanQ (l : List Int) : Option ℚ :=
  match l with
  | [] => none
  | _ => some ((l.sum : ℚ) / (l.length : ℚ))

/-- Python/numpy double values in this model; `none` stands for NaN. Real
numbers stand in for IEEE doubles: every comparison the code makes is far
from the rounding error of the float64 computation, so the branches taken
are the same. -/
abbrev PyFloat := Option ℝ

/-- Model of `np.sqrt` on a double: NaN on NaN or on negative input
(numpy emits a RuntimeWarning, not an exception). -/
noncomputable def npSqrt (x : Option ℚ) : PyFloat :=
  match x with
  | none => none
  | some q => if q < 0 then none else some (Real.sqrt (q : ℝ))

/-- Python comparison `x < c` on a double: false when `x` is NaN. -/
def pyLt (x : PyFloat) (c : ℝ) : Prop :=
  match x with
  | none => False
  | some r => r < c

noncomputable instance (x : PyFloat) (c : ℝ) : Decidable (pyLt x c) :=
  match x with
  | none => isFalse id
  | some r => inferInstanceAs (Decidable (r < c))

/-- Python builtin `min(c, x)` on doubles: returns `x` only when `x < c`
compares true, so `min(c, NaN) = c`. -/
noncomputable def pyMin (c : ℝ) (x : PyFloat) : PyFloat :=
  match x with
  | none => some c
  | some r => some (min c r)

/-- Subtraction of a constant from a double; NaN propagates. -/
noncomputable def pySub (x : PyFloat) (c : ℝ) : PyFloat := x.map (fun r => r - c)

/-- Division of a double by a nonzero constant; NaN propagates. -/
noncomputable def pyDiv (x : PyFloat) (c : ℝ) : PyFloat := x.map (fun r => r / c)

/-- Power of a double with a real exponent; NaN propagates. -/
noncomputable def pyPow (x : PyFloat) (e : ℝ) : PyFloat := x.map (fun r => r ^ e)

/-- Model of `AudioRecorder._calculate_audio_level` (audio.py lines 263-289).
The result `some r` is the returned double (`none`, NaN, is never returned:
a NaN `rms` falls through the `rms < 300` test and `min(1.0, NaN)`
yields `1.0`). An odd-length buffer makes `np.frombuffer` raise; the
exception handler returns 0.0. -/
noncomputable def calculate_audio_level (data : List Nat) : PyFloat :=
  match decodeInt16LE data with
  | none => some 0
  | some audio_data =>
    let rms : PyFloat := npSqrt (npMeanQ (audio_data.map npSquareInt16))
    if pyLt rms 300 then some 0
    else pyPow (pyMin 1 (pyDiv (pySub rms 300) (32768 - 300))) 0.7

/-- Root-mean-square amplitude of a list of samples (the quantity the spec
calls "RMS amplitude"): square root of the exact mean of the squares. -/
noncomputable def trueRMS (samples : List Int) : ℝ :=
  let sq : Int := (samples.map (fun s => s * s)).sum
  Real.sqrt ((sq : ℝ) / (samples.length : ℝ))

/-- Modelled from the spec (section 4.3), for comparison with
`calculate_audio_level`: interpret the frame as signed 16-bit little-endian
PCM samples, compute the RMS amplitude, map RMS below the noise floor 300
to 0.0, otherwise rescale `[300, 32768)` linearly to `[0,1)`, clamp at 1.0
and apply the exponent 0.7. -/
noncomputable def specLevel (data : List Nat) : PyFloat :=
  match decodeInt16LE data with
  | none => some 0
  | some samples =>
    let rms := trueRMS samples
    if rms < 300 then some 0
    else some ((min 1 ((rms - 300) / (32768 - 300))) ^ (0.7 : ℝ))

/-! ### Recorder state machine

State of an `AudioRecorder` instance together with ghost bookkeeping of the
OS-level input streams that are currently open (`openStreams`), so that
stream leaks are observable in the model. Stream handles are numbered by a
fresh-id counter `nextStreamId`. -/

structure RecState where
  sample_rate : Nat
  channels : Nat
  chunk : Nat
  /-- `self.pyaudio is not None` -/
  pyaudioUp : Bool
  /-- `self.stream` (the id of the stream object held by the field) -/
  stream : Option Nat
  /-- `self.frames`: the captured byte strings, in capture order -/
  frames : List (List Nat)
  is_recording : Bool
  /-- `self.recording_thread` is a live background thread -/
  hasThread : Bool
  max_seconds : Int
  /-- `self.level_callback` (id of the callback object, if any) -/
  level_callback : Option Nat
  /-- ghost: ids of OS input streams currently open -/
  openStreams : List Nat
  /-- ghost: source of fresh stream ids -/
  nextStreamId : Nat
deriving DecidableEq

/-- Model of `AudioRecorder.__init__` (audio.py lines 16-44); `initOk` is the
outcome of the eager `pyaudio.PyAudio()` construction (an exception there is
caught and leaves `self.pyaudio = None`). -/
def initRecorder (sample_rate channels chunk : Nat) (initOk : Bool) : RecState :=
  { sample_rate := sample_rate, channels := channels, chunk := chunk
    pyaudioUp := initOk, stream := none, frames := [], is_recording := false
    hasThread := false, max_seconds := 300, level_callback := none
    openStreams := [], nextStreamId := 0 }

/-- Environment outcomes for one call to `start_recording`: whether a needed
`pyaudio.PyAudio()` construction succeeds, and whether `pyaudio.open`
succeeds. -/
structure StartEnv where
  initOk : Bool
  openOk : Bool
deriving DecidableEq

/-- Model of `AudioRecorder.start_recording` (audio.py lines 80-143).
Mirrors the source order: reject when already recording; `if max_seconds:`
(so `None` and `0` are falsy and keep the stored limit); store the level
callback; clear the frame list; set the flag; lazily construct PyAudio
(failure clears the flag and returns `False`); open the stream (the new
handle overwrites `self.stream`; failure clears the flag and returns
`False` with `self.stream` untouched); start the background thread. -/
def start_recording (st : RecState) (max_seconds : Option Int)
    (level_callback : Option Nat) (env : StartEnv) : Bool × RecState :=
  if st.is_recording then
    (false, st)
  else
    let st1 :=
      match max_seconds with
      | some v => if v != 0 then { st with max_seconds := v } else st
      | none => st
    let st2 := { st1 with level_callback := level_callback, frames := [],
                          is_recording := true }
    if st2.pyaudioUp = false && env.initOk = false then
      (false, { st2 with is_recording := false })
    else
      let st3 := { st2 with pyaudioUp := true }
      if env.openOk then
        let sid := st3.nextStreamId
        (true, { st3 with stream := some sid,
                          openStreams := sid :: st3.openStreams,
                          nextStreamId := sid + 1,
                          hasThread := true })
      else
        (false, { st3 with is_recording := false })

/-- Reasons for the background `_record` loop to exit on its own
(audio.py lines 152-194): missing stream, failed initial read, the
max-duration check, or a read error in the loop. -/
inductive LoopExitReason
  | streamMissing
  | initialReadFailed
  | maxDuration
  | readError
deriving DecidableEq

/-- Model of the background `_record` loop exiting on its own: on every such
path the `finally` clause clears `is_recording` and the thread ends; the
stream is NOT closed and `self.stream` keeps the open handle. -/
def recordLoopExit (st : RecState) (_r : LoopExitReason) : RecState :=
  { st with is_recording := false, hasThread := false }

/-- Model of one successful `stream.read` in the `_record` loop: the chunk is
appended to the frame list (append-only). -/
def recordReadFrame (st : RecState) (data : List Nat) : RecState :=
  { st with frames := st.frames ++ [data] }

/-- Environment outcomes for one call to `stop_recording`: the best-effort
extra read made when no frames were captured yet (its success and its data),
and whether `stop_stream`/`close` succeed. -/
structure StopEnv where
  extraReadOk : Bool
  extraData : List Nat
  closeOk : Bool
deriving DecidableEq

/-- Model of `AudioRecorder.stop_recording` (audio.py lines 196-234): no-op
returning `False` when not recording; otherwise a best-effort extra read
when the frame list is empty and a stream exists, then the flag is cleared,
the thread joined, and the stream (if any) stopped, closed and the field
cleared — a close failure is logged and leaves `self.stream` set. -/
def stop_recording (st : RecState) (env : StopEnv) : Bool × RecState :=
  if st.is_recording = false then
    (false, st)
  else
    let st1 :=
      if st.frames.isEmpty then
        match st.stream with
        | some _ =>
          if env.extraReadOk then { st with frames := st.frames ++ [env.extraData] }
          else st
        | none => st
      else st
    let st2 := { st1 with is_recording := false, hasThread := false }
    match st2.stream with
    | none => (true, st2)
    | some sid =>
      if env.closeOk then
        (true, { st2 with stream := none, openStreams := st2.openStreams.erase sid })
      else
        (true, st2)

/-- The WAV file produced by the `wave` module on the success path of
`save_wav`: declared header fields and the raw PCM payload bytes. -/
structure WavFile where
  nchannels : Nat
  sampwidth : Nat
  framerate : Nat
  payload : List Nat
deriving DecidableEq

/-- Model of `AudioRecorder.save_wav` (audio.py lines 236-261): `False` and
no file when the frame list is empty; otherwise a WAV file with the
configured channel count, sample width 2 (16-bit), the configured sample
rate, and as payload the byte concatenation of the frames. The second
component is the file
created at the path (`none` = no file). -/
def save_wav (st : RecState) : Bool × Option WavFile :=
  if st.frames.isEmpty then (false, none)
  else
    (true, some { nchannels := st.channels, sampwidth := 2,
                  framerate := st.sample_rate, payload := st.frames.flatten })

/-- Environment outcomes for the warm-up call: construction of PyAudio when
absent, test-stream open, the single read, `stop_stream`, and `close`. -/
structure WarmEnv where
  initOk : Bool
  openOk : Bool
  readOk : Bool
  stopOk : Bool
  closeOk : Bool
deriving DecidableEq

/-- Result of a Python call in the model: a returned value, or an exception
escaping to the caller. -/
inductive PyOutcome
  | ret (b : Bool)
  | raised
deriving DecidableEq

/-- Model of `AudioRecorder.pre_initialize` (audio.py lines 46-78): lazily
construct PyAudio (exception caught, returns `False`); then open a test
stream, read one chunk, stop and close it, returning `True`; every
exception in that block is caught and turned into `False` (a stream opened
before the failure is leaked, visible in `openStreams`). -/
def pre_initialize (st : RecState) (env : WarmEnv) : PyOutcome × RecState :=
  if st.pyaudioUp = false && env.initOk = false then
    (PyOutcome.ret false, st)
  else
    let st1 := { st with pyaudioUp := true }
    if env.openOk = false then
      (PyOutcome.ret false, st1)
    else
      let sid := st1.nextStreamId
      let st2 := { st1 with openStreams := sid :: st1.openStreams,
                            nextStreamId := sid + 1 }
      if env.readOk = false then (PyOutcome.ret false, st2)
      else if env.stopOk = false then (PyOutcome.ret false, st2)
      else if env.closeOk = false then (PyOutcome.ret false, st2)
      else (PyOutcome.ret true, { st2 with openStreams := st2.openStreams.erase sid })

/-! ### Concrete states used by witnesses -/

/-- A recorder mid-session: recording, one open stream, some frames. -/
def busyState : RecState :=
  { sample_rate := 16000, channels := 1, chunk := 1024
    pyaudioUp := true, stream := some 0, frames := [[1, 2, 3, 4]]
    is_recording := true, hasThread := true, max_seconds := 300
    level_callback := none, openStreams := [0], nextStreamId := 1 }

/-- An idle recorder holding two captured frames from a finished session. -/
def idleWithFramesState : RecState :=
  { sample_rate := 16000, channels := 1, chunk := 1024
    pyaudioUp := true, stream := none, frames := [[1, 2], [3]]
    is_recording := false, hasThread := false, max_seconds := 300
    level_callback := none, openStreams := [], nextStreamId := 1 }

/-! ### Theorems for the claims -/

/-- C6: in every state with the recording flag set, `start_recording` returns
`False` and leaves the whole state (frames included) unchanged. -/
theorem start_while_recording_rejected (st : RecState) (ms : Option Int)
    (cb : Option Nat) (env : StartEnv) (h : st.is_recording = true) :
    start_recording st ms cb env = (false, st) := by
  simp [start_recording, h]

/-- Witness for C6 at a concrete mid-session state. -/
theorem start_while_recording_rejected_witness :
    busyState.is_recording = true ∧
    start_recording busyState (some 10) (some 7) ⟨true, true⟩ = (false, busyState) :=
  ⟨rfl, start_while_recording_rejected busyState (some 10) (some 7) ⟨true, true⟩ rfl⟩

/-- C7: with an empty frame sequence, `save_wav` returns `False` and creates
no file at the given path. -/
theorem save_wav_empty_no_file (st : RecState) (h : st.frames = []) :
    save_wav st = (false, none) := by
  simp [save_wav, h]

/-- Witness for C7 at a freshly constructed recorder. -/
theorem save_wav_empty_no_file_witness :
    (initRecorder 16000 1 1024 true).frames = [] ∧
    save_wav (initRecorder 16000 1 1024 true) = (false, none) :=
  ⟨rfl, save_wav_empty_no_file (initRecorder 16000 1 1024 true) rfl⟩

/-- C3: with a non-empty frame sequence, `save_wav` returns `True` and the
file declares the configured channel count, 16-bit sample width, the
configured sample rate, and its payload is the concatenation of the frames
in capture order, whose byte length is the sum of the frame lengths. -/
theorem save_wav_nonempty_roundtrip (st : RecState) (h : st.frames ≠ []) :
    save_wav st = (true, some { nchannels := st.channels, sampwidth := 2,
                                framerate := st.sample_rate,
                                payload := st.frames.flatten }) ∧
    (st.frames.flatten).length = (st.frames.map List.length).sum := by
  refine ⟨by simp [save_wav, h], ?_⟩
  simp [List.length_flatten]

/-- Witness for C3 on two concrete frames. -/
theorem save_wav_nonempty_roundtrip_witness :
    idleWithFramesState.frames ≠ [] ∧
    save_wav idleWithFramesState =
      (true, some { nchannels := 1, sampwidth := 2, framerate := 16000,
                    payload := [1, 2, 3] }) :=
  ⟨by decide, (save_wav_nonempty_roundtrip idleWithFramesState (by decide)).1⟩

/-- C9: the stored maximum duration starts at 300; `start_recording` with
`None` or `0` keeps the stored limit unchanged (Python `if max_seconds:`
treats both as falsy), and only a nonzero argument replaces it. -/
theorem start_falsy_max_seconds_keeps_limit (st : RecState) (cb : Option Nat)
    (env : StartEnv) :
    (initRecorder st.sample_rate st.channels st.chunk env.initOk).max_seconds = 300 ∧
    ((start_recording st none cb env).2).max_seconds = st.max_seconds ∧
    ((start_recording st (some 0) cb env).2).max_seconds = st.max_seconds ∧
    (∀ v : Int, v ≠ 0 → st.is_recording = false →
      ((start_recording st (some v) cb env).2).max_seconds = v) := by
  refine ⟨rfl, ?_, ?_, ?_⟩
  · cases h : st.is_recording <;> cases hp : st.pyaudioUp <;>
      cases hi : env.initOk <;> cases ho : env.openOk <;>
      simp [start_recording, h, hp, hi, ho]
  · cases h : st.is_recording <;> cases hp : st.pyaudioUp <;>
      cases hi : env.initOk <;> cases ho : env.openOk <;>
      simp [start_recording, h, hp, hi, ho]
  · intro v hv h
    cases hp : st.pyaudioUp <;> cases hi : env.initOk <;> cases ho : env.openOk <;>
      simp [start_recording, h, hp, hi, ho, hv]

/-- Witness for the C9 nonzero part at a concrete idle state. -/
theorem start_falsy_max_seconds_keeps_limit_witness :
    ((start_recording idleWithFramesState (some 0) none ⟨true, true⟩).2).max_seconds = 300 ∧
    ((start_recording idleWithFramesState (some 5) none ⟨true, true⟩).2).max_seconds = 5 :=
  ⟨(start_falsy_max_seconds_keeps_limit idleWithFramesState none ⟨true, true⟩).2.2.1,
   (start_falsy_max_seconds_keeps_limit idleWithFramesState none ⟨true, true⟩).2.2.2
     5 (by decide) rfl⟩

/-- C10: `start_recording` clears the frame list before trying to open the
stream, so when the open fails the call returns `False` with the previous
frames of the previous session gone, and a subsequent `save_wav` returns `False` with no
file written. -/
theorem start_open_failure_clears_frames (st : RecState) (ms : Option Int)
    (cb : Option Nat) (env : StartEnv) (h : st.is_recording = false)
    (hpy : st.pyaudioUp = true ∨ env.initOk = true) (ho : env.openOk = false) :
    (start_recording st ms cb env).1 = false ∧
    ((start_recording st ms cb env).2).frames = [] ∧
    save_wav ((start_recording st ms cb env).2) = (false, none) := by
  rcases ms with _ | v
  · simp [start_recording, h, ho, save_wav]
    refine ⟨?_, ?_⟩ <;> split <;> rfl
  · by_cases hv : v = 0
    · simp [start_recording, h, ho, hv, save_wav]
      refine ⟨?_, ?_⟩ <;> split <;> rfl
    · simp [start_recording, h, ho, hv, save_wav]
      refine ⟨?_, ?_⟩ <;> split <;> rfl

/-- Witness for C10: open failure at an idle state holding earlier frames. -/
theorem start_open_failure_clears_frames_witness :
    idleWithFramesState.is_recording = false ∧
    idleWithFramesState.frames ≠ [] ∧
    (start_recording idleWithFramesState none none ⟨true, false⟩).1 = false ∧
    ((start_recording idleWithFramesState none none ⟨true, false⟩).2).frames = [] ∧
    save_wav ((start_recording idleWithFramesState none none ⟨true, false⟩).2) =
      (false, none) := by
  have h := start_open_failure_clears_frames idleWithFramesState none none
    ⟨true, false⟩ rfl (Or.inl rfl) rfl
  exact ⟨rfl, by decide, h.1, h.2.1, h.2.2⟩

/-- C8: the warm-up never lets an exception escape, and it returns `True`
exactly when PyAudio is (or becomes) available and the test-stream open,
the single read, the stop and the close all succeed; on any failure it
returns `False`. -/
theorem warmup_total_and_success_iff (st : RecState) (env : WarmEnv) :
    ( pre_initialize st env).1 ≠ PyOutcome.raised ∧
    (( pre_initialize st env).1 = PyOutcome.ret true ↔
      (st.pyaudioUp = true ∨ env.initOk = true) ∧ env.openOk = true ∧
      env.readOk = true ∧ env.stopOk = true ∧ env.closeOk = true) := by
  rcases env with ⟨i, o, r, s, c⟩
  cases hp : st.pyaudioUp <;> cases i <;> cases o <;> cases r <;> cases s <;>
    cases c <;> simp [ pre_initialize, hp]

/-! ### Stream-leak trace for C1 -/

/-- State after a successful first `start_recording` on a fresh recorder. -/
def afterFirstStart : RecState :=
  (start_recording (initRecorder 16000 1 1024 true) none none ⟨true, true⟩).2

/-- State after the background loop then exits on its own because the
maximum duration elapsed: the flag clears but the stream stays open. -/
def afterLoopExit : RecState :=
  recordLoopExit afterFirstStart LoopExitReason.maxDuration

/-- Result of a second `start_recording` issued after the self-exit. -/
def afterSecondStart : Bool × RecState :=
  start_recording afterLoopExit none none ⟨true, true⟩

/-- C1: refutation trace. After a successful start, the self-exit of the
background loop (max duration) clears the flag but leaves stream 0 open; the next
`start_recording` is accepted and opens stream 1 while stream 0 is still
open, so two OS input streams are open simultaneously and the old handle is
lost (`stream` now names only stream 1). -/
theorem stream_leak_after_auto_stop :
    (start_recording (initRecorder 16000 1 1024 true) none none ⟨true, true⟩).1 = true ∧
    afterLoopExit.is_recording = false ∧
    afterLoopExit.openStreams = [0] ∧
    afterSecondStart.1 = true ∧
    (afterSecondStart.2).openStreams = [1, 0] ∧
    (afterSecondStart.2).stream = some 1 := by
  decide

/-! ### Evaluation helpers for the level meter -/

/-- Evaluation helper: when the wrapped-square mean of the decoded samples is
a nonnegative rational below `300 ** 2`, the `rms < 300` branch is taken and
the level is exactly 0.0. -/
theorem level_eq_zero_of_mean (data : List Nat) (samples : List Int) (q : ℚ)
    (hd : decodeInt16LE data = some samples)
    (hm : npMeanQ (samples.map npSquareInt16) = some q)
    (h0 : 0 ≤ q) (hq : (q : ℝ) < 90000) :
    calculate_audio_level data = some 0 := by
  have hs : Real.sqrt (q : ℝ) < 300 :=
    (Real.sqrt_lt' (by norm_num)).mpr (lt_of_lt_of_le hq (by norm_num))
  have hs' : pyLt (some (Real.sqrt (q : ℝ))) 300 := hs
  simp only [calculate_audio_level, hd, hm, npSqrt]
  rw [if_neg (not_lt.mpr h0), if_pos hs']

/-- Evaluation helper: when the wrapped-square mean is negative, `np.sqrt`
yields NaN, NaN falls through the `rms < 300` test, `min(1.0, NaN)` is 1.0,
and `1.0 ** 0.7` makes the level exactly 1.0. -/
theorem level_eq_one_of_neg_mean (data : List Nat) (samples : List Int) (q : ℚ)
    (hd : decodeInt16LE data = some samples)
    (hm : npMeanQ (samples.map npSquareInt16) = some q) (hq : q < 0) :
    calculate_audio_level data = some 1 := by
  simp only [calculate_audio_level, hd, hm, npSqrt]
  rw [if_pos hq, if_neg (id : ¬ pyLt none 300)]
  simp [pySub, pyDiv, pyMin, pyPow, Real.one_rpow]

/-- C2: a frame of all-zero samples yields level 0.0 (as the spec says), but
a frame of maximum-amplitude samples also yields 0.0, not 1.0: `np.square`
runs in int16, so `(-32768) ** 2` wraps to 0 and `32767 ** 2` wraps to 1,
putting the computed rms below the noise floor. -/
theorem level_extremes :
    calculate_audio_level [0, 0, 0, 0] = some 0 ∧
    calculate_audio_level [0, 128, 0, 128] = some 0 ∧
    calculate_audio_level [255, 127, 255, 127] = some 0 := by
  refine ⟨?_, ?_, ?_⟩
  · exact level_eq_zero_of_mean _ [0, 0] 0 (by decide)
      (by norm_num [npMeanQ, npSquareInt16, int16Wrap]) (by norm_num) (by norm_num)
  · exact level_eq_zero_of_mean _ [-32768, -32768] 0 (by decide)
      (by norm_num [npMeanQ, npSquareInt16, int16Wrap]) (by norm_num) (by norm_num)
  · exact level_eq_zero_of_mean _ [32767, 32767] 1 (by decide)
      (by norm_num [npMeanQ, npSquareInt16, int16Wrap]) (by norm_num) (by norm_num)

/-- C4: on the frame holding the single sample 1000 (true RMS 1000, well
above the noise floor) the code returns 0.0 — the int16 square wraps
1000000 to 16960, whose root is below 300 — while the algorithm the spec
describes returns a nonzero level. -/
theorem level_deviates_from_spec_algorithm :
    calculate_audio_level [232, 3] = some 0 ∧
    trueRMS [1000] = 1000 ∧
    specLevel [232, 3] ≠ some 0 := by
  have hd : decodeInt16LE [232, 3] = some [1000] := by decide
  have ht : trueRMS [1000] = 1000 := by
    simp only [trueRMS]
    norm_num
    rw [show (1000000 : ℝ) = 1000 ^ 2 by norm_num, Real.sqrt_sq (by norm_num)]
  refine ⟨level_eq_zero_of_mean _ [1000] 16960 hd
    (by norm_num [npMeanQ, npSquareInt16, int16Wrap]) (by norm_num)
    (by norm_num), ht, ?_⟩
  simp only [specLevel, hd, ht]
  rw [if_neg (by norm_num : ¬ (1000 : ℝ) < 300)]
  intro hcontra
  have hzero := Option.some.inj hcontra
  have hpos : (0 : ℝ) < (min 1 ((1000 - 300) / (32768 - 300))) ^ (0.7 : ℝ) :=
    Real.rpow_pos_of_pos (by norm_num [lt_min_iff]) _
  exact hpos.ne' hzero

/-- C5: the level is not monotone in RMS amplitude above the noise floor.
The frame with single sample 500 (RMS 500 > 300) gets level 1.0 — its int16
square wraps to the negative value -12144, the mean is negative, `np.sqrt`
gives NaN and `min(1.0, NaN) ** 0.7` is 1.0 — while the frame with single
sample 1000 (RMS 1000 ≥ 500) gets level 0.0. -/
theorem level_not_monotone_in_rms :
    decodeInt16LE [244, 1] = some [500] ∧
    decodeInt16LE [232, 3] = some [1000] ∧
    trueRMS [500] = 500 ∧
    (300 : ℝ) < trueRMS [500] ∧ trueRMS [500] ≤ trueRMS [1000] ∧
    calculate_audio_level [244, 1] = some 1 ∧
    calculate_audio_level [232, 3] = some 0 := by
  have h500 : trueRMS [500] = 500 := by
    simp only [trueRMS]
    norm_num
    rw [show (250000 : ℝ) = 500 ^ 2 by norm_num, Real.sqrt_sq (by norm_num)]
  have h1000 : trueRMS [1000] = 1000 := by
    simp only [trueRMS]
    norm_num
    rw [show (1000000 : ℝ) = 1000 ^ 2 by norm_num, Real.sqrt_sq (by norm_num)]
  refine ⟨by decide, by decide, h500, ?_, ?_, ?_, ?_⟩
  · rw [h500]; norm_num
  · rw [h500, h1000]; norm_num
  · exact level_eq_one_of_neg_mean _ [500] (-12144) (by decide)
      (by norm_num [npMeanQ, npSquareInt16, int16Wrap]) (by norm_num)
  · exact level_eq_zero_of_mean _ [1000] 16960 (by decide)
      (by norm_num [npMeanQ, npSquareInt16, int16Wrap]) (by norm_num) (by norm_num)

end WindowsWhisper
